import Mathlib

/-!
# Verification of the logstream MCP query layer and SDKs

Shallow embedding of `src/mcp/log-mcp-server.ts` (the MCP query gateway),
the Node SDK (`createLogger`, trace contexts) and the browser SDK
(`createBrowserLogger`).  JavaScript strings are `String`, numbers are `Int`
(or `Nat` where the source is non-negative), possibly-`undefined` values are
`Option`, and JavaScript truthiness of strings/numbers is modelled explicitly
(`""`, `0` and `undefined` are falsy).  Throwing engine calls are modelled as
`Except String`.
-/

namespace Logstream

/-- JavaScript `x || d` on a possibly-undefined string: the default replaces
both `undefined` and `""` (the only falsy string). -/
def jsOrStr (o : Option String) (d : String) : String :=
  match o with
  | some s => if s = "" then d else s
  | none => d

/-- JavaScript `x || d` on a possibly-undefined number: the default replaces
both `undefined` and `0`. -/
def jsOrInt (o : Option Int) (d : Int) : Int :=
  match o with
  | some x => if x = 0 then d else x
  | none => d

/-- Normalization of a possibly-undefined string under JavaScript truthiness:
`some ""` behaves exactly like `none` in every `if (opts.x)` test. -/
def pres (o : Option String) : Option String :=
  match o with
  | some s => if s = "" then none else some s
  | none => none

/-- JavaScript template-literal interpolation of a possibly-undefined value
(`undefined` prints as the string `undefined`). -/
def interp (o : Option String) : String :=
  match o with
  | some s => s
  | none => "undefined"

/-- Decimal value of a digit list: what `parseInt` returns on the first
capture group of `/^(\d+)(s|m|h|d)$/` (a non-empty all-digit string). -/
def digitsToNat (ds : List Char) : Nat :=
  ds.foldl (fun a c => a * 10 + (c.toNat - 48)) 0

/-- The unit table of `parseDuration`
(`{ s: 1000, m: 60000, h: 3600000, d: 86400000 }`); the final `0` is the
`units[m[2]] || 0` fallback of the source, unreachable after a regex match. -/
def unitMs (c : Char) : Nat :=
  if c = 's' then 1000
  else if c = 'm' then 60000
  else if c = 'h' then 3600000
  else if c = 'd' then 86400000
  else 0

/-- Matching of the regex `/^(\d+)(s|m|h|d)$/` on a string: succeeds exactly
when the string is a non-empty digit run followed by one unit letter, and
returns the parsed count and the unit letter. -/
def matchDuration (s : String) : Option (Nat × Char) :=
  match s.data.getLast? with
  | none => none
  | some u =>
    if u = 's' ∨ u = 'm' ∨ u = 'h' ∨ u = 'd' then
      if s.data.dropLast ≠ [] ∧ s.data.dropLast.all Char.isDigit = true then
        some (digitsToNat s.data.dropLast, u)
      else none
    else none

/-- `parseDuration` from `log-mcp-server.ts`: milliseconds denoted by a
duration specifier, defaulting to one hour when the regex does not match. -/
def parseDuration (s : String) : Nat :=
  match matchDuration s with
  | none => 3600000
  | some (n, u) => n * unitMs u

/-- Structural view of one clause pushed onto `parts` by `buildFilter`:
a quoted string equality, the `timestampMs > cutoff` range clause, or the
verbatim `extraFilter` string. -/
inductive Clause
  | eqStr (field value : String)
  | gtMs (cutoff : Int)
  | raw (s : String)
deriving DecidableEq

/-- The string each clause contributes to `parts`, exactly as the template
literals of `buildFilter` produce it (the value is interpolated verbatim). -/
def renderClause : Clause → String
  | .eqStr f v => f ++ " = \"" ++ v ++ "\""
  | .gtMs c => "timestampMs > " ++ toString c
  | .raw s => s

/-- The options object accepted by `buildFilter`. -/
structure FilterOpts where
  project : Option String := none
  level : Option String := none
  traceId : Option String := none
  environment : Option String := none
  since : Option String := none
  extraFilter : Option String := none
deriving DecidableEq

/-- One conditional push `if (opts.x) parts.push(g(opts.x))`: the singleton
clause when the option is truthy, nothing otherwise. -/
def seg (g : String → Clause) (a : Option String) : List Clause :=
  match pres a with
  | some v => [g v]
  | none => []

/-- The clauses `buildFilter` pushes, in push order; each `if (opts.x)` test
is JavaScript truthiness, i.e. a `pres` match.  `now` is `Date.now()`. -/
def buildClauses (now : Int) (o : FilterOpts) : List Clause :=
  seg (Clause.eqStr "project") o.project ++
  seg (Clause.eqStr "level") o.level ++
  seg (Clause.eqStr "traceId") o.traceId ++
  seg (Clause.eqStr "environment") o.environment ++
  seg (fun s => Clause.gtMs (now - (parseDuration s : Int))) o.since ++
  seg Clause.raw o.extraFilter

/-- The `parts` array of `buildFilter`, as strings. -/
def buildFilterParts (now : Int) (o : FilterOpts) : List String :=
  (buildClauses now o).map renderClause

/-- `buildFilter` from `log-mcp-server.ts`:
`parts.length ? parts.join(" AND ") : undefined`. -/
def buildFilter (now : Int) (o : FilterOpts) : Option String :=
  match buildFilterParts now o with
  | [] => none
  | ps => some (String.intercalate " AND " ps)

/-! ## The engine interface: queries, hits, results -/

/-- The parameter object handed to `logs.search(q, {...})`.  Fields the code
does not pass for a given tool stay at the Meilisearch defaults (`none`). -/
structure SearchQuery where
  q : String
  filter : Option String := none
  sort : Option (List String) := none
  limit : Int := 20
  facets : Option (List String) := none
  attributesToRetrieve : Option (List String) := none
deriving DecidableEq

/-- One hit returned by the engine; every attribute may be absent.  `meta` is
kept opaque (its content is never inspected by the MCP server). -/
structure Hit where
  id : Option String := none
  timestamp : Option String := none
  project : Option String := none
  level : Option String := none
  message : Option String := none
  traceId : Option String := none
  spanId : Option String := none
  parentSpanId : Option String := none
  source : Option String := none
  meta : Option String := none
  environment : Option String := none
deriving DecidableEq

/-- A facet distribution: counts per value for each facetable attribute. -/
structure FacetDist where
  project : Option (List (String × Nat)) := none
  level : Option (List (String × Nat)) := none
  environment : Option (List (String × Nat)) := none
deriving DecidableEq

/-- The engine response consumed by the tool handlers. -/
structure SearchResults where
  hits : List Hit := []
  estimatedTotalHits : Nat := 0
  facetDistribution : Option FacetDist := none
deriving DecidableEq

/-- JavaScript optional chaining `results.facetDistribution?.f`. -/
def optChain (r : SearchResults) (f : FacetDist → Option (List (String × Nat))) :
    Option (List (String × Nat)) :=
  match r.facetDistribution with
  | some fd => f fd
  | none => none

/-- The `arguments` object of a `tools/call` request (all fields optional at
the JavaScript level; schema-required ones are still read dynamically). -/
structure ToolArgs where
  query : Option String := none
  project : Option String := none
  level : Option String := none
  traceId : Option String := none
  environment : Option String := none
  since : Option String := none
  limit : Option Int := none
  message : Option String := none
deriving DecidableEq

/-! ## The six tool handlers: engine query built, response shaped -/

/-- The engine query issued by `search_logs`. -/
def searchLogsQuery (now : Int) (a : ToolArgs) : SearchQuery :=
  { q := jsOrStr a.query ""
    filter := buildFilter now
      { project := a.project, level := a.level, traceId := a.traceId,
        environment := a.environment, since := a.since }
    sort := some ["timestamp:desc"]
    limit := min (jsOrInt a.limit 20) 100
    facets := some ["project", "level"]
    attributesToRetrieve := some ["id", "timestamp", "project", "level",
      "message", "traceId", "spanId", "source", "meta", "environment"] }

/-- The response body of `search_logs`. -/
structure SearchLogsResponse where
  totalHits : Nat
  facets : Option FacetDist
  hits : List Hit
deriving DecidableEq

def searchLogsResponse (res : SearchResults) : SearchLogsResponse :=
  { totalHits := res.estimatedTotalHits
    facets := res.facetDistribution
    hits := res.hits }

/-- The engine query issued by `get_trace`
(`filter: traceId = "${args.traceId}"`, ascending sort, limit 500). -/
def getTraceQuery (a : ToolArgs) : SearchQuery :=
  { q := ""
    filter := some ("traceId = \"" ++ interp a.traceId ++ "\"")
    sort := some ["timestamp:asc"]
    limit := 500 }

/-- Insertion-order deduplication, the behaviour of
`[...new Set(xs)]` in JavaScript. -/
def jsSetDedup {α : Type} [DecidableEq α] (l : List α) : List α :=
  l.foldl (fun acc x => if x ∈ acc then acc else acc ++ [x]) []

/-- One element of the `timeline` array of `get_trace`. -/
structure TimelineEntry where
  timestamp : Option String
  project : Option String
  level : Option String
  message : Option String
  spanId : Option String
  parentSpanId : Option String
  source : Option String
deriving DecidableEq

/-- The response body of `get_trace`. -/
structure TraceResponse where
  traceId : Option String
  eventCount : Nat
  projects : List (Option String)
  timeline : List TimelineEntry
deriving DecidableEq

def getTraceResponse (a : ToolArgs) (res : SearchResults) : TraceResponse :=
  { traceId := a.traceId
    eventCount := res.hits.length
    projects := jsSetDedup (res.hits.map Hit.project)
    timeline := res.hits.map (fun h =>
      { timestamp := h.timestamp, project := h.project, level := h.level,
        message := h.message, spanId := h.spanId,
        parentSpanId := h.parentSpanId, source := h.source }) }

/-- The engine query issued by `tail_logs`. -/
def tailLogsQuery (now : Int) (a : ToolArgs) : SearchQuery :=
  { q := ""
    filter := buildFilter now { project := a.project, level := a.level }
    sort := some ["timestamp:desc"]
    limit := min (jsOrInt a.limit 30) 100 }

/-- The response body of `tail_logs`. -/
structure TailResponse where
  count : Nat
  logs : List Hit
deriving DecidableEq

def tailLogsResponse (res : SearchResults) : TailResponse :=
  { count := res.hits.length, logs := res.hits.reverse }

/-- The engine query issued by `list_projects`. -/
def listProjectsQuery : SearchQuery :=
  { q := ""
    facets := some ["project", "level", "environment"]
    limit := 0 }

/-- The response body of `list_projects`. -/
structure ProjectsResponse where
  totalLogs : Nat
  byProject : Option (List (String × Nat))
  byLevel : Option (List (String × Nat))
  byEnvironment : Option (List (String × Nat))
deriving DecidableEq

def listProjectsResponse (res : SearchResults) : ProjectsResponse :=
  { totalLogs := res.estimatedTotalHits
    byProject := optChain res FacetDist.project
    byLevel := optChain res FacetDist.level
    byEnvironment := optChain res FacetDist.environment }

/-- The engine query issued by `error_summary`
(`since: args.since || "1h"`, extra disjunctive level clause). -/
def errorSummaryQuery (now : Int) (a : ToolArgs) : SearchQuery :=
  { q := jsOrStr a.query ""
    filter := buildFilter now
      { project := a.project
        since := some (jsOrStr a.since "1h")
        extraFilter := some "(level = \"error\" OR level = \"fatal\")" }
    sort := some ["timestamp:desc"]
    limit := 30
    facets := some ["project"] }

/-- One element of the `recentErrors` array of `error_summary`. -/
structure ErrEntry where
  timestamp : Option String
  project : Option String
  message : Option String
  source : Option String
  traceId : Option String
  meta : Option String
deriving DecidableEq

/-- The response body of `error_summary`. -/
structure ErrorSummaryResponse where
  totalErrors : Nat
  byProject : Option (List (String × Nat))
  recentErrors : List ErrEntry
deriving DecidableEq

def errorSummaryResponse (res : SearchResults) : ErrorSummaryResponse :=
  { totalErrors := res.estimatedTotalHits
    byProject := optChain res FacetDist.project
    recentErrors := res.hits.map (fun h =>
      { timestamp := h.timestamp, project := h.project, message := h.message,
        source := h.source, traceId := h.traceId, meta := h.meta }) }

/-- The engine query issued by `find_similar`. -/
def findSimilarQuery (now : Int) (a : ToolArgs) : SearchQuery :=
  { q := interp a.message
    filter := buildFilter now { project := a.project }
    limit := jsOrInt a.limit 10 }

/-- The response body of `find_similar`.  The source names the second field
`matches`, a reserved word in Lean; it is `matched` here. -/
structure FindSimilarResponse where
  query : Option String
  matched : List Hit
deriving DecidableEq

def findSimilarResponse (a : ToolArgs) (res : SearchResults) : FindSimilarResponse :=
  { query := a.message, matched := res.hits }

/-! ## The tools/call handler -/

/-- The content of one `tools/call` result.  The source serializes the shaped
response object with `JSON.stringify`; serialization is abstracted as the
injection of the structured response, while the two plain-text cases (unknown
tool, caught error) keep their exact strings. -/
inductive CallPayload
  | searchLogs (r : SearchLogsResponse)
  | trace (r : TraceResponse)
  | tail (r : TailResponse)
  | projects (r : ProjectsResponse)
  | errors (r : ErrorSummaryResponse)
  | similar (r : FindSimilarResponse)
  | message (s : String)
deriving DecidableEq

/-- The object returned by the `tools/call` handler. -/
structure CallResult where
  payload : CallPayload
  isError : Bool := false
deriving DecidableEq

/-- The tool names the `switch` recognizes. -/
def knownTools : List String :=
  ["search_logs", "get_trace", "tail_logs", "list_projects",
   "error_summary", "find_similar"]

/-- The body of the `try` block: the `switch` over the tool name.  `engine`
is `logs.search`; a thrown engine exception is an `Except.error` carrying
`err.message`. -/
def dispatch (engine : SearchQuery → Except String SearchResults) (now : Int)
    (name : String) (a : ToolArgs) : Except String CallResult :=
  if name = "search_logs" then do
    let res ← engine (searchLogsQuery now a)
    pure { payload := .searchLogs (searchLogsResponse res) }
  else if name = "get_trace" then do
    let res ← engine (getTraceQuery a)
    pure { payload := .trace (getTraceResponse a res) }
  else if name = "tail_logs" then do
    let res ← engine (tailLogsQuery now a)
    pure { payload := .tail (tailLogsResponse res) }
  else if name = "list_projects" then do
    let res ← engine listProjectsQuery
    pure { payload := .projects (listProjectsResponse res) }
  else if name = "error_summary" then do
    let res ← engine (errorSummaryQuery now a)
    pure { payload := .errors (errorSummaryResponse res) }
  else if name = "find_similar" then do
    let res ← engine (findSimilarQuery now a)
    pure { payload := .similar (findSimilarResponse a res) }
  else
    pure { payload := .message ("Unknown tool: " ++ name), isError := true }

/-- The whole `tools/call` handler: the `switch` wrapped in `try/catch`; a
caught exception becomes an `isError` result carrying the message. -/
def toolsCall (engine : SearchQuery → Except String SearchResults) (now : Int)
    (name : String) (a : ToolArgs) : CallResult :=
  match dispatch engine now name a with
  | .ok r => r
  | .error e => { payload := .message ("Error: " ++ e), isError := true }

/-! ## Node SDK (`createLogger`): log entries and trace contexts -/

/-- The logger options fields the `log` function reads. -/
structure NodeLoggerOptions where
  project : String
  environment : Option String := none
deriving DecidableEq

/-- The optional `extra` argument of `log` (the `LogMeta` interface).
`meta` is a free-form object, opaque here; an object is always truthy, so
unlike the string fields it is copied whenever present. -/
structure LogMeta where
  traceId : Option String := none
  spanId : Option String := none
  parentSpanId : Option String := none
  meta : Option (List (String × String)) := none
  source : Option String := none
deriving DecidableEq

/-- One entry pushed onto the queue by the Node `log` function. -/
structure Entry where
  timestamp : String
  project : String
  environment : String
  level : String
  message : String
  traceId : Option String := none
  spanId : Option String := none
  parentSpanId : Option String := none
  meta : Option (List (String × String)) := none
  source : Option String := none
deriving DecidableEq

/-- The Node SDK `log` function: builds one entry.  `nowIso` is
`new Date().toISOString()`; each `if (extra?.x)` guard is JavaScript
truthiness (`pres` for strings, presence for the `meta` object). -/
def nodeLog (opts : NodeLoggerOptions) (nowIso : String)
    (level message : String) (extra : Option LogMeta) : Entry :=
  { timestamp := nowIso
    project := opts.project
    environment := jsOrStr opts.environment "dev"
    level := level
    message := message
    traceId := pres (extra.bind LogMeta.traceId)
    spanId := pres (extra.bind LogMeta.spanId)
    parentSpanId := pres (extra.bind LogMeta.parentSpanId)
    meta := extra.bind LogMeta.meta
    source := pres (extra.bind LogMeta.source) }

/-- Browser logger options fields the browser `log` function reads. -/
structure BrowserLoggerOptions where
  project : String
  environment : Option String := none
deriving DecidableEq

/-- One entry pushed by the browser `log` function; `meta` is the spread
`{...meta, url}` where `url` may be `undefined`. -/
structure BrowserEntry where
  timestamp : String
  project : String
  environment : String
  level : String
  message : String
  meta : List (String × Option String)
deriving DecidableEq

/-- The browser SDK `log` function.  `locationHref` is
`location.href` when a `location` object exists. -/
def browserLog (opts : BrowserLoggerOptions) (nowIso : String)
    (locationHref : Option String) (level message : String)
    (meta : Option (List (String × Option String))) : BrowserEntry :=
  { timestamp := nowIso
    project := opts.project
    environment := jsOrStr opts.environment "dev"
    level := level
    message := message
    meta := meta.getD [] ++ [("url", locationHref)] }

/-! ## Trace contexts

`crypto.randomUUID` is modelled as a deterministic supply: `uuid n` is the
n-th id generated in the process.  The model is injective and never returns
the empty string, the two properties of real UUIDs the proofs rely on.  Each
function returns the advanced supply counter alongside its result. -/

/-- Model of `crypto.randomUUID()`: the n-th generated id. -/
def uuid (n : Nat) : String :=
  String.mk ('u' :: List.replicate n 'x')

/-- The propagation headers read and written by the trace functions. -/
structure TraceHeaders where
  xTraceId : Option String := none
  xSpanId : Option String := none
  xParentSpanId : Option String := none
deriving DecidableEq

/-- The context returned by `startTrace`: two fresh ids. -/
structure StartedTrace where
  traceId : String
  spanId : String
deriving DecidableEq

/-- `startTrace`: `traceId = randomUUID(); spanId = randomUUID()`. -/
def startTrace (k : Nat) : StartedTrace × Nat :=
  ({ traceId := uuid k, spanId := uuid (k + 1) }, k + 2)

/-- `headers()` of a `startTrace` context:
`x-trace-id` and `x-span-id` only. -/
def startedHeaders (t : StartedTrace) : TraceHeaders :=
  { xTraceId := some t.traceId, xSpanId := some t.spanId }

/-- A child span context (`span()` of either trace context shape). -/
structure SpanCtx where
  traceId : String
  spanId : String
  parentSpanId : String
deriving DecidableEq

/-- `span(childName)` on a `startTrace` context: a fresh `childSpanId`, the
parent trace id, and `parentSpanId = spanId` of the parent. -/
def startedSpan (t : StartedTrace) (k : Nat) : SpanCtx × Nat :=
  ({ traceId := t.traceId, spanId := uuid k, parentSpanId := t.spanId }, k + 1)

/-- The context returned by `continueTrace`: trace id from the incoming
`x-trace-id` header (fresh when falsy), a fresh span id, and the incoming
`x-span-id` kept verbatim as the parent span id. -/
structure ContinuedTrace where
  traceId : String
  spanId : String
  parentSpanId : Option String
deriving DecidableEq

/-- `continueTrace(headers, name)`: `traceId = headers["x-trace-id"] ||
randomUUID(); parentSpanId = headers["x-span-id"]; spanId = randomUUID()`.
`randomUUID` for the trace id only runs when the header is falsy. -/
def continueTrace (h : TraceHeaders) (k : Nat) : ContinuedTrace × Nat :=
  match pres h.xTraceId with
  | some t =>
    ({ traceId := t, spanId := uuid k, parentSpanId := h.xSpanId }, k + 1)
  | none =>
    ({ traceId := uuid k, spanId := uuid (k + 1), parentSpanId := h.xSpanId },
      k + 2)

/-- `headers()` of a `continueTrace` context: always reports
`x-parent-span-id`, as `parentSpanId || ""`. -/
def continuedHeaders (c : ContinuedTrace) : TraceHeaders :=
  { xTraceId := some c.traceId
    xSpanId := some c.spanId
    xParentSpanId := some (jsOrStr c.parentSpanId "") }

/-- `span(childName)` on a `continueTrace` context. -/
def continuedSpan (c : ContinuedTrace) (k : Nat) : SpanCtx × Nat :=
  ({ traceId := c.traceId, spanId := uuid k, parentSpanId := c.spanId }, k + 1)

/-! ## Engine-side semantics of a built filter

The engine evaluates the filter as the conjunction of its clauses; the
semantics of a `raw` clause (the `extraFilter` string) is a parameter, so
every theorem below holds for any reading of it. -/

/-- The filterable attributes of a stored record, as the engine sees them. -/
structure LogRecord where
  project : Option String := none
  level : Option String := none
  traceId : Option String := none
  environment : Option String := none
  timestampMs : Int := 0
deriving DecidableEq

/-- Attribute lookup by field name. -/
def fieldVal (r : LogRecord) (f : String) : Option String :=
  if f = "project" then r.project
  else if f = "level" then r.level
  else if f = "traceId" then r.traceId
  else if f = "environment" then r.environment
  else none

/-- Satisfaction of one clause by a record. -/
def satClause (rawSem : String → LogRecord → Prop) (r : LogRecord) :
    Clause → Prop
  | .eqStr f v => fieldVal r f = some v
  | .gtMs c => r.timestampMs > c
  | .raw s => rawSem s r

/-- A record satisfies a built filter when it satisfies every clause. -/
def satFilter (rawSem : String → LogRecord → Prop) (now : Int)
    (o : FilterOpts) (r : LogRecord) : Prop :=
  ∀ c ∈ buildClauses now o, satClause rawSem r c

/-- One option extends another when the smaller one is absent (falsy) or
they agree up to JavaScript truthiness. -/
def optExt (a b : Option String) : Prop :=
  pres a = pres b ∨ pres a = none

/-- `o2` extends `o1`: every component present in `o1` is present in `o2`
with the same value. -/
def FilterOpts.Ext (o1 o2 : FilterOpts) : Prop :=
  optExt o1.project o2.project ∧ optExt o1.level o2.level ∧
  optExt o1.traceId o2.traceId ∧ optExt o1.environment o2.environment ∧
  optExt o1.since o2.since ∧ optExt o1.extraFilter o2.extraFilter

/-! ## Helper lemmas -/

theorem pres_some_of_ne {s : String} (h : s ≠ "") : pres (some s) = some s := by
  simp [pres, h]

theorem pres_none : pres none = none := rfl

theorem jsOrStr_ne_empty (o : Option String) {d : String} (hd : d ≠ "") :
    jsOrStr o d ≠ "" := by
  cases o with
  | none => simpa [jsOrStr] using hd
  | some s =>
    by_cases hs : s = "" <;> simp [jsOrStr, hs, hd]

theorem seg_mem {g : String → Clause} {a : Option String} {c : Clause} :
    c ∈ seg g a ↔ ∃ v, pres a = some v ∧ c = g v := by
  rcases ha : pres a with _ | v <;> simp [seg, ha]

theorem seg_eq_nil {g : String → Clause} {a : Option String} :
    seg g a = [] ↔ pres a = none := by
  rcases ha : pres a with _ | v <;> simp [seg, ha]

theorem seg_of_pres_some {g : String → Clause} {a : Option String} {v : String}
    (h : pres a = some v) : seg g a = [g v] := by
  simp [seg, h]

theorem seg_of_pres_none {g : String → Clause} {a : Option String}
    (h : pres a = none) : seg g a = [] := by
  simp [seg, h]

theorem seg_sublist {g : String → Clause} {a b : Option String}
    (h : optExt a b) : (seg g a).Sublist (seg g b) := by
  rcases h with h | h
  · simp only [seg, h]
    exact List.Sublist.refl _
  · rw [seg_of_pres_none h]
    exact List.nil_sublist _

theorem buildClauses_sublist (now : Int) {o1 o2 : FilterOpts}
    (h : FilterOpts.Ext o1 o2) :
    (buildClauses now o1).Sublist (buildClauses now o2) := by
  obtain ⟨h1, h2, h3, h4, h5, h6⟩ := h
  exact ((((((seg_sublist h1).append (seg_sublist h2)).append
    (seg_sublist h3)).append (seg_sublist h4)).append
    (seg_sublist h5)).append (seg_sublist h6))

theorem mem_jsSetDedup_foldl {α : Type} [DecidableEq α] (l : List α) :
    ∀ (acc : List α) (x : α),
      x ∈ l.foldl (fun acc x => if x ∈ acc then acc else acc ++ [x]) acc ↔
        x ∈ acc ∨ x ∈ l := by
  induction l with
  | nil => simp
  | cons a l ih =>
    intro acc x
    simp only [List.foldl_cons, List.mem_cons]
    by_cases ha : a ∈ acc
    · rw [if_pos ha, ih]
      constructor
      · rintro (h | h)
        · exact Or.inl h
        · exact Or.inr (Or.inr h)
      · rintro (h | h | h)
        · exact Or.inl h
        · rw [h]; exact Or.inl ha
        · exact Or.inr h
    · rw [if_neg ha, ih]
      simp [List.mem_append, or_assoc]

theorem nodup_jsSetDedup_foldl {α : Type} [DecidableEq α] (l : List α) :
    ∀ acc : List α, acc.Nodup →
      (l.foldl (fun acc x => if x ∈ acc then acc else acc ++ [x]) acc).Nodup := by
  induction l with
  | nil => intro acc h; simpa using h
  | cons a l ih =>
    intro acc h
    simp only [List.foldl_cons]
    by_cases ha : a ∈ acc
    · rw [if_pos ha]; exact ih acc h
    · rw [if_neg ha]
      refine ih (acc ++ [a]) ?_
      simp [List.nodup_append, h, ha]

theorem mem_jsSetDedup {α : Type} [DecidableEq α] {l : List α} {x : α} :
    x ∈ jsSetDedup l ↔ x ∈ l := by
  simpa [jsSetDedup] using mem_jsSetDedup_foldl l [] x

theorem nodup_jsSetDedup {α : Type} [DecidableEq α] (l : List α) :
    (jsSetDedup l).Nodup :=
  nodup_jsSetDedup_foldl l [] (by simp)

theorem uuid_ne_empty (n : Nat) : uuid n ≠ "" := by
  intro h
  have h2 := congrArg String.data h
  simp [uuid] at h2

theorem uuid_inj {m n : Nat} (h : uuid m = uuid n) : m = n := by
  have h2 := congrArg String.data h
  simp only [uuid] at h2
  have h3 := congrArg List.length h2
  simpa using h3

theorem str_ne_empty_of_data {s : String} (h : s.data ≠ []) : s ≠ "" := by
  intro he
  apply h
  rw [he]

theorem buildFilter_eq_none_iff (now : Int) (o : FilterOpts) :
    buildFilter now o = none ↔ buildFilterParts now o = [] := by
  cases hp : buildFilterParts now o with
  | nil => simp [buildFilter, hp]
  | cons x xs => simp [buildFilter, hp]

theorem matchDuration_of_decomp {s : String} {ds : List Char} {u : Char}
    (hs : s.data = ds ++ [u]) (hds : ds ≠ [])
    (hdig : ∀ c ∈ ds, c.isDigit = true)
    (hu : u = 's' ∨ u = 'm' ∨ u = 'h' ∨ u = 'd') :
    matchDuration s = some (digitsToNat ds, u) := by
  unfold matchDuration
  rw [hs]
  rw [show (ds ++ [u]).getLast? = some u by simp]
  rw [show (ds ++ [u]).dropLast = ds by simp]
  show (if u = 's' ∨ u = 'm' ∨ u = 'h' ∨ u = 'd' then
    if ds ≠ [] ∧ ds.all Char.isDigit = true then
      some (digitsToNat ds, u) else none else none) = some (digitsToNat ds, u)
  rw [if_pos hu, if_pos ⟨hds, List.all_eq_true.mpr hdig⟩]

theorem matchDuration_eq_none {s : String}
    (h : ¬ ∃ ds u, s.data = ds ++ [u] ∧ ds ≠ [] ∧
      (∀ c ∈ ds, c.isDigit = true) ∧
      (u = 's' ∨ u = 'm' ∨ u = 'h' ∨ u = 'd')) :
    matchDuration s = none := by
  unfold matchDuration
  cases hl : s.data.getLast? with
  | none => rfl
  | some u =>
    have hdecomp : s.data.dropLast ++ [u] = s.data :=
      List.dropLast_append_getLast? u hl
    show (if u = 's' ∨ u = 'm' ∨ u = 'h' ∨ u = 'd' then
      if s.data.dropLast ≠ [] ∧ s.data.dropLast.all Char.isDigit = true then
        some (digitsToNat s.data.dropLast, u) else none else none) = none
    by_cases hu : u = 's' ∨ u = 'm' ∨ u = 'h' ∨ u = 'd'
    · rw [if_pos hu]
      by_cases hcond : s.data.dropLast ≠ [] ∧
          s.data.dropLast.all Char.isDigit = true
      · exact absurd ⟨s.data.dropLast, u, hdecomp.symm, hcond.1,
          List.all_eq_true.mp hcond.2, hu⟩ h
      · rw [if_neg hcond]
    · rw [if_neg hu]

/-! ## Claim C1: escaping of string values in filters -/

/-- Claim C1 counterexample: `buildFilter` does not escape double quotes.
The project value `a" AND level = "x` — which contains a double quote —
yields exactly the same filter string as the two separate options
`project = a, level = x`: the embedded quote closes the quoted value and the
remainder of the value is read as filter syntax. -/
theorem buildFilter_quote_injection :
    buildFilter 0 { project := some "a\" AND level = \"x" } =
      buildFilter 0 { project := some "a", level := some "x" } ∧
    '\"' ∈ ("a\" AND level = \"x").data := by
  constructor
  · decide
  · decide

/-- Claim C1 amended: string values (project, level, traceId, environment,
and the trace id of `get_trace`) are interpolated into the quoted filter
clause verbatim, with no escaping transformation applied; consequently a
double quote inside a value closes the quoted filter string (see the
counterexample). -/
theorem buildFilter_no_escaping (now : Int) (v : String) (hv : v ≠ "") :
    buildFilterParts now { project := some v } =
      ["project = \"" ++ v ++ "\""] ∧
    buildFilterParts now { level := some v } =
      ["level = \"" ++ v ++ "\""] ∧
    buildFilterParts now { traceId := some v } =
      ["traceId = \"" ++ v ++ "\""] ∧
    buildFilterParts now { environment := some v } =
      ["environment = \"" ++ v ++ "\""] ∧
    (getTraceQuery { traceId := some v }).filter =
      some ("traceId = \"" ++ v ++ "\"") := by
  refine ⟨?_, ?_, ?_, ?_, rfl⟩ <;>
    simp [buildFilterParts, buildClauses, seg, pres, hv, renderClause]

/-- Witness for `buildFilter_no_escaping` at a value containing a quote. -/
theorem buildFilter_no_escaping_witness :
    buildFilterParts 0 { project := some "a\"b" } =
      ["project = \"" ++ "a\"b" ++ "\""] :=
  (buildFilter_no_escaping 0 "a\"b" (by decide)).1

/-! ## Claim C2: search_logs limit and sort -/

/-- Claim C2 counterexample: the engine limit is not the requested limit
clamped to [1, 100]: a requested limit of -1 is passed through as -1,
whereas clamping to [1, 100] would give 1. -/
theorem searchLogs_limit_not_clamped :
    (searchLogsQuery 0 { limit := some (-1) }).limit = -1 ∧
    max 1 (min (-1 : Int) 100) = 1 ∧ (-1 : Int) ≠ 1 := by
  refine ⟨?_, ?_, ?_⟩ <;> decide

/-- Claim C2 amended: the limit passed to the engine is `min(requested, 100)`
whenever a non-zero limit is provided (so values below 1 pass through
unclamped), and 20 when the limit is absent or zero (JavaScript
`args.limit || 20`); the query is sorted by `timestamp:desc`. -/
theorem searchLogs_limit_spec (now : Int) (a : ToolArgs) :
    (a.limit = none ∨ a.limit = some 0 →
      (searchLogsQuery now a).limit = 20) ∧
    (∀ l : Int, l ≠ 0 → a.limit = some l →
      (searchLogsQuery now a).limit = min l 100) ∧
    (searchLogsQuery now a).sort = some ["timestamp:desc"] := by
  refine ⟨?_, ?_, rfl⟩
  · rintro (h | h) <;> simp [searchLogsQuery, jsOrInt, h]
  · intro l hl h
    simp [searchLogsQuery, jsOrInt, h, hl]

/-- Witness for `searchLogs_limit_spec`: requested limit 50 reaches the
engine as `min 50 100`, and an absent limit becomes 20. -/
theorem searchLogs_limit_spec_witness :
    (searchLogsQuery 0 { limit := some 50 }).limit = min 50 100 ∧
    (searchLogsQuery 0 {}).limit = 20 :=
  ⟨(searchLogs_limit_spec 0 { limit := some 50 }).2.1 50 (by decide) rfl,
   (searchLogs_limit_spec 0 {}).1 (Or.inl rfl)⟩

/-! ## Claim C3: `since` duration parsing and the cutoff clause -/

/-- Claim C3: for every `since` string matching `\d+(s|m|h|d)` — i.e. a
non-empty digit run followed by one unit letter — the parsed duration is the
digit value times the unit (1000 ms for s, 60000 for m, 3600000 for h,
86400000 for d) and the built filter contains the clause
`timestampMs > now - duration`; every string not of that shape parses to the
default 3600000 ms (one hour). -/
theorem since_duration_spec (now : Int) (s : String) :
    (unitMs 's' = 1000 ∧ unitMs 'm' = 60000 ∧ unitMs 'h' = 3600000 ∧
      unitMs 'd' = 86400000) ∧
    (∀ ds u, s.data = ds ++ [u] → ds ≠ [] →
      (∀ c ∈ ds, c.isDigit = true) →
      (u = 's' ∨ u = 'm' ∨ u = 'h' ∨ u = 'd') →
      parseDuration s = digitsToNat ds * unitMs u ∧
      ("timestampMs > " ++
          toString (now - ((digitsToNat ds * unitMs u : Nat) : Int)))
        ∈ buildFilterParts now { since := some s }) ∧
    ((¬ ∃ ds u, s.data = ds ++ [u] ∧ ds ≠ [] ∧
        (∀ c ∈ ds, c.isDigit = true) ∧
        (u = 's' ∨ u = 'm' ∨ u = 'h' ∨ u = 'd')) →
      parseDuration s = 3600000) := by
  refine ⟨⟨by decide, by decide, by decide, by decide⟩, ?_, ?_⟩
  · intro ds u hs hds hdig hu
    have hmd := matchDuration_of_decomp hs hds hdig hu
    have hpd : parseDuration s = digitsToNat ds * unitMs u := by
      unfold parseDuration
      rw [hmd]
    have hne : s ≠ "" := str_ne_empty_of_data (by rw [hs]; simp)
    refine ⟨hpd, ?_⟩
    simp [buildFilterParts, buildClauses, seg, pres, hne, renderClause, hpd]
  · intro hno
    unfold parseDuration
    rw [matchDuration_eq_none hno]

/-- Witness for `since_duration_spec` at the specifier `5m`. -/
theorem since_duration_spec_witness :
    parseDuration "5m" = digitsToNat ['5'] * unitMs 'm' ∧
    ("timestampMs > " ++
        toString ((0 : Int) - ((digitsToNat ['5'] * unitMs 'm' : Nat) : Int)))
      ∈ buildFilterParts 0 { since := some "5m" } :=
  (since_duration_spec 0 "5m").2.1 ['5'] 'm' (by decide) (by decide)
    (by decide) (by decide)

/-! ## Claim C4: get_trace query and response shaping -/

/-- Claim C4: a trace query for id `T` reaches the engine with the filter
`traceId = "T"`, ascending timestamp sort and limit 500; the response's
`eventCount` is the number of hits and `projects` is the hits' project
values deduplicated (no duplicates, same membership). -/
theorem getTrace_spec (a : ToolArgs) (T : String) (h : a.traceId = some T)
    (res : SearchResults) :
    (getTraceQuery a).filter = some ("traceId = \"" ++ T ++ "\"") ∧
    (getTraceQuery a).sort = some ["timestamp:asc"] ∧
    (getTraceQuery a).limit = 500 ∧
    (getTraceQuery a).q = "" ∧
    (getTraceResponse a res).eventCount = res.hits.length ∧
    (getTraceResponse a res).projects = jsSetDedup (res.hits.map Hit.project) ∧
    (getTraceResponse a res).projects.Nodup ∧
    (∀ p, p ∈ (getTraceResponse a res).projects ↔
      p ∈ res.hits.map Hit.project) := by
  refine ⟨?_, rfl, rfl, rfl, rfl, rfl, nodup_jsSetDedup _,
    fun p => mem_jsSetDedup⟩
  simp [getTraceQuery, h, interp]

/-- Witness for `getTrace_spec`: three hits over projects a, a, b give
eventCount 3 and a duplicate-free project list containing a and b. -/
theorem getTrace_spec_witness :
    (getTraceQuery { traceId := some "T" }).filter =
      some ("traceId = \"" ++ "T" ++ "\"") ∧
    (getTraceResponse { traceId := some "T" }
      { hits := [{ project := some "a" }, { project := some "a" },
                 { project := some "b" }] }).eventCount =
      ([{ project := some "a" }, { project := some "a" },
        { project := some "b" }] : List Hit).length ∧
    (getTraceResponse { traceId := some "T" }
      { hits := [{ project := some "a" }, { project := some "a" },
                 { project := some "b" }] }).projects.Nodup :=
  ⟨(getTrace_spec { traceId := some "T" } "T" rfl {}).1,
   (getTrace_spec { traceId := some "T" } "T" rfl
      { hits := [{ project := some "a" }, { project := some "a" },
                 { project := some "b" }] }).2.2.2.2.1,
   (getTrace_spec { traceId := some "T" } "T" rfl
      { hits := [{ project := some "a" }, { project := some "a" },
                 { project := some "b" }] }).2.2.2.2.2.2.1⟩

/-! ## Claim C5: error_summary query and response shaping -/

/-- Claim C5: the error-summary engine filter is the conjunction of the
optional project equality, the `timestampMs` cutoff for `since` (defaulting
to `1h`, i.e. 3600000 ms, when absent), and the disjunction
`(level = "error" OR level = "fatal")`; facets are over project only, the
limit is 30, the sort is `timestamp:desc`, and the response carries
`totalErrors`, `byProject` and `recentErrors`. -/
theorem errorSummary_spec (now : Int) (a : ToolArgs) (res : SearchResults) :
    (errorSummaryQuery now a).filter = some (String.intercalate " AND "
      ((seg (Clause.eqStr "project") a.project ++
        [Clause.gtMs (now - (parseDuration (jsOrStr a.since "1h") : Int)),
         Clause.raw "(level = \"error\" OR level = \"fatal\")"]).map
        renderClause)) ∧
    (a.since = none → parseDuration (jsOrStr a.since "1h") = 3600000) ∧
    (errorSummaryQuery now a).facets = some ["project"] ∧
    (errorSummaryQuery now a).limit = 30 ∧
    (errorSummaryQuery now a).sort = some ["timestamp:desc"] ∧
    (errorSummaryQuery now a).q = jsOrStr a.query "" ∧
    (errorSummaryResponse res).totalErrors = res.estimatedTotalHits ∧
    (errorSummaryResponse res).byProject = optChain res FacetDist.project ∧
    (errorSummaryResponse res).recentErrors = res.hits.map (fun h =>
      { timestamp := h.timestamp, project := h.project, message := h.message,
        source := h.source, traceId := h.traceId, meta := h.meta }) := by
  have h1h : jsOrStr a.since "1h" ≠ "" :=
    jsOrStr_ne_empty a.since (by decide)
  refine ⟨?_, ?_, rfl, rfl, rfl, rfl, rfl, rfl, rfl⟩
  · rcases hp : pres a.project with _ | p <;>
      simp [errorSummaryQuery, buildFilter, buildFilterParts, buildClauses,
        seg, hp, pres_none, pres_some_of_ne h1h,
        pres_some_of_ne (show ("(level = \"error\" OR level = \"fatal\")" :
          String) ≠ "" by decide)]
  · intro h
    rw [show jsOrStr a.since "1h" = "1h" by rw [h]; rfl]
    decide

/-- Witness for `errorSummary_spec`: with no arguments the filter is the one
hour cutoff AND-ed with the error/fatal disjunction. -/
theorem errorSummary_spec_witness :
    (errorSummaryQuery 0 {}).filter = some
      ("timestampMs > -3600000 AND (level = \"error\" OR level = \"fatal\")") :=
  ((errorSummary_spec 0 {} {}).1).trans (by decide)

/-! ## Claim C6: conjunctive and monotone filter composition -/

/-- Claim C6: the built filter consists of exactly the clauses of the
present (truthy) components — nothing else — joined with `" AND "`, and is
absent when no component is present; consequently, for every semantics of
the clauses, extending the options can only shrink the set of records
satisfying the filter. -/
theorem buildFilter_conjunctive_monotone (now : Int) (o1 o2 : FilterOpts)
    (rawSem : String → LogRecord → Prop) (r : LogRecord)
    (hext : FilterOpts.Ext o1 o2) :
    (∀ c, c ∈ buildClauses now o1 ↔
      ((∃ v, pres o1.project = some v ∧ c = Clause.eqStr "project" v) ∨
       (∃ v, pres o1.level = some v ∧ c = Clause.eqStr "level" v) ∨
       (∃ v, pres o1.traceId = some v ∧ c = Clause.eqStr "traceId" v) ∨
       (∃ v, pres o1.environment = some v ∧
         c = Clause.eqStr "environment" v) ∨
       (∃ v, pres o1.since = some v ∧
         c = Clause.gtMs (now - (parseDuration v : Int))) ∨
       (∃ v, pres o1.extraFilter = some v ∧ c = Clause.raw v))) ∧
    (buildFilter now o1 = none ↔
      pres o1.project = none ∧ pres o1.level = none ∧
      pres o1.traceId = none ∧ pres o1.environment = none ∧
      pres o1.since = none ∧ pres o1.extraFilter = none) ∧
    (buildFilter now o1 = none ∨
      buildFilter now o1 =
        some (String.intercalate " AND " (buildFilterParts now o1))) ∧
    (satFilter rawSem now o2 r → satFilter rawSem now o1 r) := by
  refine ⟨?_, ?_, ?_, ?_⟩
  · intro c
    simp [buildClauses, List.mem_append, seg_mem, or_assoc]
  · rw [buildFilter_eq_none_iff]
    simp [buildFilterParts, buildClauses, List.map_eq_nil_iff,
      List.append_eq_nil, seg_eq_nil]
  · cases hp : buildFilterParts now o1 with
    | nil => exact Or.inl (by simp [buildFilter, hp])
    | cons x xs => exact Or.inr (by simp [buildFilter, hp])
  · intro hsat c hc
    exact hsat c ((buildClauses_sublist now hext).subset hc)

/-- Witness for `buildFilter_conjunctive_monotone`: adding a level filter to
a project filter only shrinks the satisfying records. -/
theorem buildFilter_conjunctive_monotone_witness :
    FilterOpts.Ext { project := some "api" }
      { project := some "api", level := some "error" } ∧
    (satFilter (fun _ _ => True) 0
        { project := some "api", level := some "error" } {} →
      satFilter (fun _ _ => True) 0 { project := some "api" } {}) :=
  have hext : FilterOpts.Ext { project := some "api" }
      { project := some "api", level := some "error" } :=
    ⟨Or.inl rfl, Or.inr rfl, Or.inl rfl, Or.inl rfl, Or.inl rfl, Or.inl rfl⟩
  ⟨hext, (buildFilter_conjunctive_monotone 0 _ _ (fun _ _ => True) {}
    hext).2.2.2⟩

/-! ## Claim C7: list_projects query and response shaping -/

/-- Claim C7: the projects overview queries the engine with the empty search
string, limit 0 and facets over exactly project, level and environment (no
filter, no sort), and the response is totalLogs plus the three facet
distributions. -/
theorem listProjects_spec (res : SearchResults) :
    listProjectsQuery.q = "" ∧
    listProjectsQuery.limit = 0 ∧
    listProjectsQuery.facets = some ["project", "level", "environment"] ∧
    listProjectsQuery.filter = none ∧
    listProjectsQuery.sort = none ∧
    (listProjectsResponse res).totalLogs = res.estimatedTotalHits ∧
    (listProjectsResponse res).byProject = optChain res FacetDist.project ∧
    (listProjectsResponse res).byLevel = optChain res FacetDist.level ∧
    (listProjectsResponse res).byEnvironment =
      optChain res FacetDist.environment :=
  ⟨rfl, rfl, rfl, rfl, rfl, rfl, rfl, rfl, rfl⟩

/-! ## Claim C8: SDK environment defaulting -/

/-- Claim C8 counterexample: an environment explicitly specified as the
empty string is not carried into the entry — JavaScript `||` replaces it
with "dev" in both SDKs. -/
theorem sdk_env_empty_counterexample :
    (nodeLog { project := "p", environment := some "" } "t" "info" "m"
      none).environment = "dev" ∧
    (browserLog { project := "p", environment := some "" } "t" none "info"
      "m" none).environment = "dev" ∧
    ("dev" : String) ≠ "" := by
  refine ⟨by decide, by decide, by decide⟩

/-- Claim C8 amended: entries emitted by the Node SDK and the browser SDK
carry environment "dev" when the options specify no environment or specify
the empty string, and carry the configured value whenever a non-empty
environment is specified. -/
theorem sdk_env_default_spec (nopts : NodeLoggerOptions)
    (bopts : BrowserLoggerOptions) (ts : String) (href : Option String)
    (lvl msg : String) (extra : Option LogMeta)
    (bmeta : Option (List (String × Option String))) :
    ((nopts.environment = none ∨ nopts.environment = some "") →
      (nodeLog nopts ts lvl msg extra).environment = "dev") ∧
    (∀ v, v ≠ "" → nopts.environment = some v →
      (nodeLog nopts ts lvl msg extra).environment = v) ∧
    ((bopts.environment = none ∨ bopts.environment = some "") →
      (browserLog bopts ts href lvl msg bmeta).environment = "dev") ∧
    (∀ v, v ≠ "" → bopts.environment = some v →
      (browserLog bopts ts href lvl msg bmeta).environment = v) := by
  refine ⟨?_, ?_, ?_, ?_⟩
  · rintro (h | h) <;> simp [nodeLog, jsOrStr, h]
  · intro v hv h
    simp [nodeLog, jsOrStr, h, hv]
  · rintro (h | h) <;> simp [browserLog, jsOrStr, h]
  · intro v hv h
    simp [browserLog, jsOrStr, h, hv]

/-- Witness for `sdk_env_default_spec`: a configured environment `prod` is
carried verbatim by both SDKs. -/
theorem sdk_env_default_spec_witness :
    (nodeLog { project := "p", environment := some "prod" } "t" "info" "m"
      none).environment = "prod" ∧
    (browserLog { project := "p", environment := some "prod" } "t" none
      "info" "m" none).environment = "prod" :=
  ⟨(sdk_env_default_spec { project := "p", environment := some "prod" }
      { project := "p" } "t" none "info" "m" none none).2.1 "prod"
      (by decide) rfl,
   (sdk_env_default_spec { project := "p" }
      { project := "p", environment := some "prod" } "t" none "info" "m"
      none none).2.2.2 "prod" (by decide) rfl⟩

/-! ## Claim C9: trace-context propagation round trip -/

/-- Claim C9: continuing a trace from the headers of a started trace keeps
the trace id, generates a fresh span id (distinct from the parent's ids),
and reports `x-parent-span-id` equal to the parent's span id; child spans of
either context carry the parent's trace id and a `parentSpanId` equal to the
parent's span id. -/
theorem trace_propagation_spec (k j j2 : Nat) :
    ((continueTrace (startedHeaders (startTrace k).1)
        (startTrace k).2).1.traceId = (startTrace k).1.traceId) ∧
    ((continueTrace (startedHeaders (startTrace k).1)
        (startTrace k).2).1.spanId ≠ (startTrace k).1.spanId) ∧
    ((continueTrace (startedHeaders (startTrace k).1)
        (startTrace k).2).1.spanId ≠ (startTrace k).1.traceId) ∧
    ((continuedHeaders (continueTrace (startedHeaders (startTrace k).1)
        (startTrace k).2).1).xParentSpanId = some (startTrace k).1.spanId) ∧
    ((startedSpan (startTrace k).1 j).1.traceId =
      (startTrace k).1.traceId) ∧
    ((startedSpan (startTrace k).1 j).1.parentSpanId =
      (startTrace k).1.spanId) ∧
    ((continuedSpan (continueTrace (startedHeaders (startTrace k).1)
          (startTrace k).2).1 j2).1.traceId =
      (continueTrace (startedHeaders (startTrace k).1)
        (startTrace k).2).1.traceId) ∧
    ((continuedSpan (continueTrace (startedHeaders (startTrace k).1)
          (startTrace k).2).1 j2).1.parentSpanId =
      (continueTrace (startedHeaders (startTrace k).1)
        (startTrace k).2).1.spanId) := by
  have hct : continueTrace (startedHeaders (startTrace k).1)
      (startTrace k).2 =
      ({ traceId := uuid k, spanId := uuid (k + 2),
         parentSpanId := some (uuid (k + 1)) }, k + 3) := by
    simp [continueTrace, startedHeaders, startTrace,
      pres_some_of_ne (uuid_ne_empty k)]
  rw [hct]
  refine ⟨rfl, ?_, ?_, ?_, rfl, rfl, rfl, rfl⟩
  · intro h
    have := uuid_inj h
    omega
  · intro h
    have := uuid_inj h
    omega
  · simp [continuedHeaders, jsOrStr, uuid_ne_empty (k + 1), startTrace]

/-! ## Claim C10: totality and error handling of the tools/call handler -/

/-- Claim C10: the `tools/call` handler always returns a result: an
unrecognized tool name yields an `isError` result whose text is
`Unknown tool: <name>`, and an exception thrown while executing a tool is
caught and returned as an `isError` result carrying `Error: <message>`. -/
theorem toolsCall_total_spec (engine : SearchQuery → Except String SearchResults)
    (now : Int) (name : String) (a : ToolArgs) (e : String) :
    (∃ r : CallResult, toolsCall engine now name a = r) ∧
    (name ∉ knownTools →
      toolsCall engine now name a =
        { payload := .message ("Unknown tool: " ++ name), isError := true }) ∧
    (dispatch engine now name a = Except.error e →
      toolsCall engine now name a =
        { payload := .message ("Error: " ++ e), isError := true }) := by
  refine ⟨⟨_, rfl⟩, ?_, ?_⟩
  · intro h
    simp [knownTools] at h
    obtain ⟨h1, h2, h3, h4, h5, h6⟩ := h
    simp [toolsCall, dispatch, h1, h2, h3, h4, h5, h6, pure, Except.pure]
  · intro hd
    simp [toolsCall, hd]

/-- Witness for `toolsCall_total_spec`: an unknown tool name and a throwing
engine both produce `isError` results with the documented texts. -/
theorem toolsCall_total_spec_witness :
    toolsCall (fun _ => Except.error "boom") 0 "nope" {} =
      { payload := .message ("Unknown tool: " ++ "nope"), isError := true } ∧
    toolsCall (fun _ => Except.error "boom") 0 "search_logs" {} =
      { payload := .message ("Error: " ++ "boom"), isError := true } :=
  ⟨(toolsCall_total_spec (fun _ => Except.error "boom") 0 "nope" {}
      "boom").2.1 (by decide),
   (toolsCall_total_spec (fun _ => Except.error "boom") 0 "search_logs" {}
      "boom").2.2 rfl⟩

end Logstream
